import Mathlib

/-!
# Verification of the native build driver (`tools/build.py`)

This file is a shallow embedding of the build driver script into Lean:

* Python `dict[str, str]` values are modelled as association lists in
  insertion order (`dictGet`/`dictSet` mirror `d[k]` lookup and `d[k] = v`
  update semantics).
* `SystemExit` (raised by `fail`) and `subprocess.CalledProcessError` are
  modelled by the error type `PyErr`; fallible functions return `Except`.
* Filesystem and process effects are made explicit: an environment record
  carries the results of `platform.system()`, `platform.machine()`,
  `shutil.which`, file contents and the exit status of external commands,
  and the build pipeline returns the sequence of performed effects as a
  trace of `BuildEvent`s together with the final filesystem state.
* File contents handled by the ZenDNN patch helpers are `List Char`
  (Python strings are sequences of code points); Python's `in` operator
  and `str.replace` are modelled by `containsL` and `replaceL`.
* In string literals, `\x7b` and `\x7d` denote the literal brace
  characters appearing in the source text.

Definitions keep the names of the Python functions they embed.
-/

/-- Lookup in a Python `dict` modelled as an association list (`d[k]`,
returning `none` where Python would raise `KeyError`). -/
def dictGet {α : Type} : List (String × α) → String → Option α
  | [], _ => none
  | (k', v) :: rest, k => if k' = k then some v else dictGet rest k

/-- Update of a Python `dict` modelled as an association list (`d[k] = v`):
an existing key keeps its position and gets the new value, a new key is
appended at the end. -/
def dictSet {α : Type} : List (String × α) → String → α → List (String × α)
  | [], k, v => [(k, v)]
  | (k', v') :: rest, k, v =>
      if k' = k then (k, v) :: rest else (k', v') :: dictSet rest k v

/-- Python exceptions that terminate the run: `SystemExit` raised by
`fail(message)`, and `subprocess.CalledProcessError` carrying the external
tool's exit code (converted to a `SystemExit` only at top level). -/
inductive PyErr where
  | systemExit (msg : String)
  | calledProcess (returncode : Int)
deriving DecidableEq

/-- `LINUX_BACKENDS` from the source. -/
def LINUX_BACKENDS : List String := ["full", "vulkan", "cuda", "blas"]

/-- `ANDROID_BACKENDS` from the source. -/
def ANDROID_BACKENDS : List String := ["full", "vulkan", "opencl"]

/-- `WINDOWS_BACKENDS` from the source. -/
def WINDOWS_BACKENDS : List String := ["full", "vulkan", "cuda", "blas"]

/-- `linux_backend_cache_vars(arch, backend)` from the source. -/
def linux_backend_cache_vars (arch backend : String) :
    Except PyErr (List (String × String)) :=
  if backend = "cuda" ∧ arch ≠ "x64" then
    .error (.systemExit "Linux cuda backend build is only available for x64")
  else
    let cache_vars : List (String × String) :=
      [("GGML_VULKAN", "OFF"), ("GGML_OPENCL", "OFF"), ("GGML_CUDA", "OFF"),
       ("GGML_BLAS", "OFF"), ("GGML_ZENDNN", "OFF"),
       ("GGML_CPU_KLEIDIAI", if arch = "arm64" then "ON" else "OFF")]
    let cache_vars :=
      if backend = "full" ∨ backend = "vulkan" then
        dictSet cache_vars "GGML_VULKAN" "ON"
      else cache_vars
    let cache_vars :=
      if backend = "full" ∨ backend = "cuda" then
        dictSet cache_vars "GGML_CUDA" "ON"
      else cache_vars
    let cache_vars :=
      if backend = "full" ∨ backend = "blas" then
        dictSet (dictSet cache_vars "GGML_BLAS" "ON") "GGML_BLAS_VENDOR" "OpenBLAS"
      else cache_vars
    .ok cache_vars

/-- `android_backend_cache_vars(abi, backend)` from the source. -/
def android_backend_cache_vars (abi backend : String) : List (String × String) :=
  let cache_vars : List (String × String) :=
    [("GGML_VULKAN", "OFF"), ("GGML_OPENCL", "OFF"),
     ("GGML_CPU_KLEIDIAI", if abi = "arm64-v8a" then "ON" else "OFF")]
  let cache_vars :=
    if backend = "full" ∨ backend = "vulkan" then
      dictSet cache_vars "GGML_VULKAN" "ON"
    else cache_vars
  let cache_vars :=
    if backend = "full" ∨ backend = "opencl" then
      dictSet cache_vars "GGML_OPENCL" "ON"
    else cache_vars
  cache_vars

/-- `windows_backend_cache_vars(arch, backend)` from the source. -/
def windows_backend_cache_vars (arch backend : String) :
    Except PyErr (List (String × String)) :=
  if backend = "cuda" ∧ arch ≠ "x64" then
    .error (.systemExit "Windows cuda backend build is only available for x64")
  else
    let cache_vars : List (String × String) :=
      [("GGML_VULKAN", "OFF"), ("GGML_OPENCL", "OFF"), ("GGML_CUDA", "OFF"),
       ("GGML_BLAS", "OFF"),
       ("GGML_CPU_KLEIDIAI", if arch = "arm64" then "ON" else "OFF")]
    let cache_vars :=
      if backend = "full" ∨ backend = "vulkan" then
        dictSet cache_vars "GGML_VULKAN" "ON"
      else cache_vars
    let cache_vars :=
      if backend = "full" ∨ backend = "cuda" then
        dictSet cache_vars "GGML_CUDA" "ON"
      else cache_vars
    let cache_vars :=
      if backend = "full" ∨ backend = "blas" then
        dictSet (dictSet cache_vars "GGML_BLAS" "ON") "GGML_BLAS_VENDOR" "OpenBLAS"
      else cache_vars
    .ok cache_vars

/-- `cmake_cache_args(cache_vars)` from the source: `-D{key}={value}` per entry. -/
def cmake_cache_args (cache_vars : List (String × String)) : List String :=
  cache_vars.map (fun kv => "-D" ++ kv.1 ++ "=" ++ kv.2)

/-! ## Capability key sets (closed, platform-specific)

The spec's `BackendFlagSet` has a fixed set of ON/OFF capability keys per
platform. `GGML_BLAS_VENDOR` is a string-valued vendor selector, not a
capability key, and is therefore not part of these sets. -/

/-- The closed capability key set of the Linux resolver. -/
def linuxCapabilityKeys : List String :=
  ["GGML_VULKAN", "GGML_OPENCL", "GGML_CUDA", "GGML_BLAS", "GGML_ZENDNN",
   "GGML_CPU_KLEIDIAI"]

/-- The closed capability key set of the Windows resolver. -/
def windowsCapabilityKeys : List String :=
  ["GGML_VULKAN", "GGML_OPENCL", "GGML_CUDA", "GGML_BLAS", "GGML_CPU_KLEIDIAI"]

/-- The closed capability key set of the Android resolver. -/
def androidCapabilityKeys : List String :=
  ["GGML_VULKAN", "GGML_OPENCL", "GGML_CPU_KLEIDIAI"]

/-- The capabilities a `(arch, backend)` request implies on Linux: the
backend-implication table of the spec, plus the architecture-conditional
CPU-kernel capability. -/
def linuxImpliedOn (arch backend : String) : List String :=
  (if backend = "full" ∨ backend = "vulkan" then ["GGML_VULKAN"] else []) ++
  (if backend = "full" ∨ backend = "cuda" then ["GGML_CUDA"] else []) ++
  (if backend = "full" ∨ backend = "blas" then ["GGML_BLAS"] else []) ++
  (if arch = "arm64" then ["GGML_CPU_KLEIDIAI"] else [])

/-- The capabilities a `(arch, backend)` request implies on Windows. -/
def windowsImpliedOn (arch backend : String) : List String :=
  (if backend = "full" ∨ backend = "vulkan" then ["GGML_VULKAN"] else []) ++
  (if backend = "full" ∨ backend = "cuda" then ["GGML_CUDA"] else []) ++
  (if backend = "full" ∨ backend = "blas" then ["GGML_BLAS"] else []) ++
  (if arch = "arm64" then ["GGML_CPU_KLEIDIAI"] else [])

/-- The capabilities an `(abi, backend)` request implies on Android. -/
def androidImpliedOn (abi backend : String) : List String :=
  (if backend = "full" ∨ backend = "vulkan" then ["GGML_VULKAN"] else []) ++
  (if backend = "full" ∨ backend = "opencl" then ["GGML_OPENCL"] else []) ++
  (if abi = "arm64-v8a" then ["GGML_CPU_KLEIDIAI"] else [])

/-- Checks that a resolution succeeded and that every key of the closed
capability key set is bound, to `"ON"` exactly when implied and to `"OFF"`
otherwise. -/
def capComplete (r : Except PyErr (List (String × String)))
    (keys impliedOn : List String) : Bool :=
  match r with
  | .error _ => false
  | .ok cache_vars =>
      keys.all fun key =>
        dictGet cache_vars key ==
          some (if impliedOn.contains key then "ON" else "OFF")

/-! ## Python string containment and replacement

Python `str` values are sequences of code points, modelled as `List Char`.
`containsL pat s` models `pat in s`; `replaceL old new s` models
`s.replace(old, new)` (leftmost, non-overlapping replacement of every
occurrence) for a non-empty `old`. -/

/-- `s.startswith(pat)` on code-point lists. -/
def hasPrefixL : List Char → List Char → Bool
  | [], _ => true
  | _ :: _, [] => false
  | a :: pat, b :: s => a == b && hasPrefixL pat s

/-- `pat in s` on code-point lists (contiguous substring containment). -/
def containsL (pat : List Char) : List Char → Bool
  | [] => hasPrefixL pat []
  | c :: rest => hasPrefixL pat (c :: rest) || containsL pat rest

/-- `s.replace(old, new)` on code-point lists: scan left to right, replace
each non-overlapping occurrence of `old` by `new`.  (The degenerate
`old = []` case, which Python treats specially, is mapped to the identity;
the patch strings are non-empty.) -/
def replaceL (old new : List Char) (s : List Char) : List Char :=
  match s with
  | [] => []
  | c :: rest =>
      if old.isEmpty then c :: replaceL old new rest
      else if hasPrefixL old (c :: rest) then
        new ++ replaceL old new (rest.drop (old.length - 1))
      else c :: replaceL old new rest
termination_by s.length
decreasing_by
  all_goals simp only [List.length_drop, List.length_cons]
  all_goals omega

/-- The legacy ZenDNN install command string (`old` in
`patch_llama_zendnn_install_target`); `\x7b`/`\x7d` are the brace
characters. -/
def zendnnOld : List Char :=
  "INSTALL_COMMAND $\x7bCMAKE_COMMAND\x7d --build $\x7bZENDNN_BUILD_DIR\x7d --target install".data

/-- The patched ZenDNN install command string (`new` in
`patch_llama_zendnn_install_target`). -/
def zendnnNew : List Char :=
  "INSTALL_COMMAND $\x7bCMAKE_COMMAND\x7d --build $\x7bZENDNN_BUILD_DIR\x7d --target zendnnl".data

/-- `patch_llama_zendnn_install_target()` from the source, acting on the
content of `third_party/llama.cpp/ggml/src/ggml-zendnn/CMakeLists.txt`
(`none` when the file is missing).  Returns the new file content and the
function's result (`true` when a change was made). -/
def patch_llama_zendnn_install_target (content : Option (List Char)) :
    Option (List Char) × Except PyErr Bool :=
  match content with
  | none =>
      (none, .error (.systemExit
        "Missing ggml-zendnn CMake file in llama.cpp submodule. Run: git submodule update --init --recursive"))
  | some text =>
      if containsL zendnnNew text then (some text, .ok false)
      else if containsL zendnnOld text = false then
        (some text, .error (.systemExit
          "Could not apply ZenDNN install target patch: expected install command not found in third_party/llama.cpp/ggml/src/ggml-zendnn/CMakeLists.txt"))
      else (some (replaceL zendnnOld zendnnNew text), .ok true)

/-- `restore_llama_zendnn_install_target()` from the source, acting on the
same file content; a missing file and an unpatched file are left as is. -/
def restore_llama_zendnn_install_target (content : Option (List Char)) :
    Option (List Char) :=
  match content with
  | none => none
  | some text =>
      if containsL zendnnNew text = false then some text
      else some (replaceL zendnnNew zendnnOld text)

set_option maxRecDepth 4000

/-! ## Artifact collection

`Path.rglob` listings are modelled as lists of `FsEntry` (full path,
basename, regular-file flag).  Python's string methods `.lower()`,
`.startswith`, `.endswith` and string comparison (used by `sorted`) are
modelled over the code-point lists. -/

/-- A filesystem entry of the recursive build-tree listing: full path,
basename (`Path.name`) and whether it is a regular file. -/
structure FsEntry where
  path : String
  name : String
  isFile : Bool
deriving DecidableEq

/-- Python string comparison (`<`), lexicographic on code points. -/
def ltCharList : List Char → List Char → Bool
  | [], [] => false
  | [], _ :: _ => true
  | _ :: _, [] => false
  | a :: as, b :: bs => if a < b then true else if b < a then false else ltCharList as bs

/-- `a < b` on Python strings. -/
def strLt (a b : String) : Bool := ltCharList a.data b.data

/-- Insert into a list that is sorted ascending by `key`. -/
def insertSorted {α : Type} (key : α → String) (x : α) : List α → List α
  | [] => [x]
  | y :: ys => if strLt (key x) (key y) then x :: y :: ys else y :: insertSorted key x ys

/-- Python `sorted` with string key, ascending. -/
def sortBy {α : Type} (key : α → String) (l : List α) : List α :=
  l.foldr (insertSorted key) []

/-- `s.startswith(p)` on Python strings. -/
def strStartsWith (s p : String) : Bool := hasPrefixL p.data s.data

/-- `s.endswith(p)` on Python strings. -/
def strEndsWith (s p : String) : Bool := hasPrefixL p.data.reverse s.data.reverse

/-- ASCII case folding of one character (`str.lower` restricted to the
ASCII names handled here). -/
def charLower (c : Char) : Char :=
  if c.toNat ≥ 65 ∧ c.toNat ≤ 90 then Char.ofNat (c.toNat + 32) else c

/-- `s.lower()` on Python strings (ASCII case folding). -/
def strLowerData (s : String) : List Char := s.data.map charLower

/-- `is_runtime_library(path)` from the source: a regular file whose
lowercased basename has one of the native shared-library extensions
`.dll`, `.dylib`, `.so` and starts with one of the fixed product-name
prefixes.  Versioned alias names such as `libfoo.so.0` do not end with
`.so` and are therefore rejected. -/
def is_runtime_library (p : FsEntry) : Bool :=
  let nameL : String := ⟨strLowerData p.name⟩
  if p.isFile = false then false
  else if (strEndsWith nameL ".dll" || strEndsWith nameL ".dylib" ||
      strEndsWith nameL ".so") = false then
    false
  else
    ["llamadart", "llama", "ggml", "mtmd", "libllamadart", "libllama", "libggml",
     "libmtmd"].any (fun pre => strStartsWith nameL pre)

/-- One step of the selection loop of `collect_runtime_libraries`:
`selected[p.name] = p` for qualifying files. -/
def collectStep (acc : List (String × FsEntry)) (p : FsEntry) :
    List (String × FsEntry) :=
  if is_runtime_library p then dictSet acc p.name p else acc

/-- `collect_runtime_libraries(build_dir)` from the source: iterate the
sorted recursive listing (`tree`), index qualifying files by basename
(a later path overwrites an earlier one with the same basename), fail
when nothing qualifies, and return the selected entries sorted by
basename. -/
def collect_runtime_libraries (build_dir : String) (tree : List FsEntry) :
    Except PyErr (List FsEntry) :=
  let selected := (sortBy (fun p => p.path) tree).foldl collectStep []
  if selected = [] then
    .error (.systemExit ("No runtime libraries found under " ++ build_dir))
  else
    .ok ((sortBy (fun kv => kv.1) selected).map (fun kv => kv.2))

/-- `reset_dir(path)` from the source: delete the directory if it exists
and recreate it empty.  A directory is modelled as its list of file
names, `none` when it does not exist. -/
def reset_dir (_dir : Option (List String)) : Option (List String) := some []

/-- `copy_output(src, dst)` from the source: create the parent directory
as needed and copy the file into it. -/
def copy_output (dir : Option (List String)) (name : String) : Option (List String) :=
  match dir with
  | none => some [name]
  | some files => some (files ++ [name])

/-- `copy_runtime_libraries(build_dir, out_dir)` from the source: collect
the artifacts, then reset the output directory, then copy each artifact
into it.  Returns the final state of the output directory together with
the outcome. -/
def copy_runtime_libraries (build_dir : String) (tree : List FsEntry)
    (out_dir : Option (List String)) :
    Option (List String) × Except PyErr Unit :=
  match collect_runtime_libraries build_dir tree with
  | .error e => (out_dir, .error e)
  | .ok libs =>
      (libs.foldl (fun dir src => copy_output dir src.name) (reset_dir out_dir), .ok ())

/-- The spec's example build tree, literally: `libfoo`/`libbar` names. -/
def exampleTreeFoo : List FsEntry :=
  [⟨"libfoo.so", "libfoo.so", true⟩, ⟨"libfoo.so.0", "libfoo.so.0", true⟩,
   ⟨"libfoo.so.0.0.0", "libfoo.so.0.0.0", true⟩,
   ⟨"libbar.dylib", "libbar.dylib", true⟩]

/-- The spec's example build tree transposed onto actually allowlisted
product names (`libggml`, `libllama`). -/
def exampleTreeGgml : List FsEntry :=
  [⟨"libggml.so", "libggml.so", true⟩, ⟨"libggml.so.0", "libggml.so.0", true⟩,
   ⟨"libggml.so.0.0.0", "libggml.so.0.0.0", true⟩,
   ⟨"libllama.dylib", "libllama.dylib", true⟩]

/-! ## The build pipeline

External-process and host-inspection effects are supplied by environment
records; the pipeline's performed effects are returned as an event trace. -/

/-- Observable effects of a build invocation. -/
inductive BuildEvent where
  | ran (cmd : List String)
  | patchAppliedEv
  | patchRestoredEv
deriving DecidableEq

/-- `run(cmd)` from the source: one external tool invocation;
`check=True` raises `CalledProcessError` carrying the tool's exit code on
a non-zero exit.  `exitOf` supplies each command's exit code. -/
def runCmd (exitOf : List String → Int) (cmd : List String) :
    List BuildEvent × Except PyErr Unit :=
  ([.ran cmd],
    if exitOf cmd = 0 then .ok () else .error (.calledProcess (exitOf cmd)))

/-- The `--parallel` arguments of the build command (`if jobs and jobs > 0`). -/
def jobsArgs : Option Int → List String
  | some j => if 0 < j then ["--parallel", toString j] else []
  | none => []

/-- `resolve_build_dir_for_preset(preset)`: the presets-file metadata is
not needed by any claim, so the conventional fallback `build/<preset>`
stands in for the resolved location. -/
def resolve_build_dir_for_preset (preset : String) : String := "build/" ++ preset

/-- `configure_and_build(preset, jobs=…, extra_cmake_args=…)` from the
source: run `cmake --preset <preset> <extra>`; only on success run
`cmake --build --preset <preset> [--parallel <jobs>]`; return the build
directory.  A non-zero exit of either step aborts with that exit code. -/
def configure_and_build (exitOf : List String → Int) (preset : String)
    (jobs : Option Int) (extra : List String) :
    List BuildEvent × Except PyErr String :=
  let configure_cmd := ["cmake", "--preset", preset] ++ extra
  match runCmd exitOf configure_cmd with
  | (t1, .error e) => (t1, .error e)
  | (t1, .ok _) =>
      let build_cmd := ["cmake", "--build", "--preset", preset] ++ jobsArgs jobs
      match runCmd exitOf build_cmd with
      | (t2, .error e) => (t1 ++ t2, .error e)
      | (t2, .ok _) => (t1 ++ t2, .ok (resolve_build_dir_for_preset preset))

/-- `detect_linux_arch()` from the source, on `platform.machine().lower()`. -/
def detect_linux_arch (machine : String) : Except PyErr String :=
  if machine = "x86_64" ∨ machine = "amd64" ∨ machine = "x64" then .ok "x64"
  else if machine = "aarch64" ∨ machine = "arm64" then .ok "arm64"
  else .error (.systemExit
    ("Unsupported host architecture '" ++ machine ++ "' for Linux builds"))

/-- The CLI arguments of `build_linux`. -/
structure LinuxArgs where
  arch : Option String
  backend : String
  clean : Bool
  jobs : Option Int

/-- The environment `build_linux` runs in: host inspection results, tool
discovery, file contents, exit codes of external commands, the build-tree
listing the external build produces, and the prior contents of the output
directory. -/
structure LinuxEnv where
  system : String
  machine : String
  which : String → Option String
  llamaCMakeExists : Bool
  zendnnCMake : Option (List Char)
  exitOf : List String → Int
  buildTree : List FsEntry
  outPrior : Option (List String)

/-- Result of a linux build invocation: the event trace, the final
content of the ZenDNN CMake file, the final output directory state, and
the outcome. -/
structure LinuxResult where
  trace : List BuildEvent
  zendnn : Option (List Char)
  outDir : Option (List String)
  outcome : Except PyErr Unit

/-- The `try/finally` block ending `build_linux`: configure-and-build,
then collect-and-copy; on every exit path, when the ZenDNN patch had been
applied, restore it. -/
def linux_build_collect_finally (env : LinuxEnv) (args : LinuxArgs)
    (preset : String) (extra : List String) (zendnn_patch_applied : Bool)
    (zendnn : Option (List Char)) : LinuxResult :=
  match configure_and_build env.exitOf preset args.jobs extra with
  | (t1, .error e) =>
      if zendnn_patch_applied then
        ⟨t1 ++ [.patchRestoredEv], restore_llama_zendnn_install_target zendnn,
          env.outPrior, .error e⟩
      else ⟨t1, zendnn, env.outPrior, .error e⟩
  | (t1, .ok build_dir) =>
      let copied := copy_runtime_libraries build_dir env.buildTree env.outPrior
      let zendnnF :=
        if zendnn_patch_applied then restore_llama_zendnn_install_target zendnn
        else zendnn
      let tF := t1 ++ (if zendnn_patch_applied then [BuildEvent.patchRestoredEv] else [])
      match copied with
      | (outF, .error e) => ⟨tF, zendnnF, outF, .error e⟩
      | (outF, .ok _) => ⟨tF, zendnnF, outF, .ok ()⟩

/-- `build_linux(args)` from the source: host checks, architecture
resolution, cache-variable resolution, cross-compiler injection, CUDA
toolchain check, conditional ZenDNN patching, and the guarded
configure/build/collect step. -/
def build_linux (env : LinuxEnv) (args : LinuxArgs) : LinuxResult :=
  if env.system ≠ "linux" then
    ⟨[], env.zendnnCMake, env.outPrior,
      .error (.systemExit "Linux builds must be run on Linux hosts")⟩
  else if env.llamaCMakeExists = false then
    ⟨[], env.zendnnCMake, env.outPrior,
      .error (.systemExit
        "Missing submodule: third_party/llama.cpp. Run: git submodule update --init --recursive")⟩
  else
    match (match args.arch with
           | some a => Except.ok a
           | none => detect_linux_arch env.machine) with
    | .error e => ⟨[], env.zendnnCMake, env.outPrior, .error e⟩
    | .ok arch =>
        let preset := "linux-" ++ arch ++ "-full"
        match linux_backend_cache_vars arch args.backend with
        | .error e => ⟨[], env.zendnnCMake, env.outPrior, .error e⟩
        | .ok cache_vars =>
            let extra := cmake_cache_args cache_vars
            match detect_linux_arch env.machine with
            | .error e => ⟨[], env.zendnnCMake, env.outPrior, .error e⟩
            | .ok host_arch =>
                match (if arch = "arm64" ∧ host_arch ≠ "arm64" then
                    match env.which "aarch64-linux-gnu-gcc",
                        env.which "aarch64-linux-gnu-g++" with
                    | some cc, some cxx =>
                        Except.ok (extra ++
                          ["-DCMAKE_C_COMPILER=" ++ cc,
                           "-DCMAKE_CXX_COMPILER=" ++ cxx,
                           "-DCMAKE_SYSTEM_NAME=Linux",
                           "-DCMAKE_SYSTEM_PROCESSOR=aarch64"])
                    | _, _ =>
                        Except.error (PyErr.systemExit
                          "Cross compiler not found. Install aarch64-linux-gnu-gcc and aarch64-linux-gnu-g++")
                  else Except.ok extra) with
                | .error e => ⟨[], env.zendnnCMake, env.outPrior, .error e⟩
                | .ok extra_args =>
                    if dictGet cache_vars "GGML_CUDA" = some "ON" ∧
                        env.which "nvcc" = none ∧ env.which "nvcc.exe" = none then
                      ⟨[], env.zendnnCMake, env.outPrior,
                        .error (.systemExit
                          "Linux CUDA backend build requires CUDA (nvcc not found in PATH)")⟩
                    else
                      match (if arch = "x64" ∧
                          dictGet cache_vars "GGML_ZENDNN" = some "ON" then
                          patch_llama_zendnn_install_target env.zendnnCMake
                        else (env.zendnnCMake, Except.ok false)) with
                      | (z1, .error e) => ⟨[], z1, env.outPrior, .error e⟩
                      | (z1, .ok applied) =>
                          let r := linux_build_collect_finally env args preset
                            extra_args applied z1
                          ⟨(if applied then [BuildEvent.patchAppliedEv] else []) ++
                            r.trace, r.zendnn, r.outDir, r.outcome⟩

/-- `WINDOWS_VCPKG_TRIPLETS` lookup from the source. -/
def windowsVcpkgTriplet (arch : String) : Option String :=
  if arch = "x64" then some "x64-windows"
  else if arch = "arm64" then some "arm64-windows"
  else none

/-- The CLI arguments of `build_windows`. -/
structure WindowsArgs where
  arch : String
  backend : String
  clean : Bool
  jobs : Option Int
  vulkan_sdk : Option String

/-- The environment `build_windows` runs in; the toolchain-discovery
chains (`detect_vcpkg_root`, `infer_vulkan_sdk`, `find_file_with_suffix`)
are filesystem searches and enter as resolved oracles. -/
structure WindowsEnv where
  system : String
  which : String → Option String
  llamaCMakeExists : Bool
  exitOf : List String → Int
  vcpkgRoot : Option String
  vcpkgToolchainIsFile : Bool
  vulkanSdk : Option String
  vulkanLib : Option String
  glslc : Option String
  buildTree : List FsEntry
  outPrior : Option (List String)

/-- Result of a windows build invocation. -/
structure WindowsResult where
  trace : List BuildEvent
  outDir : Option (List String)
  outcome : Except PyErr Unit

/-- `build_windows(args)` from the source. -/
def build_windows (env : WindowsEnv) (args : WindowsArgs) : WindowsResult :=
  if env.system ≠ "windows" then
    ⟨[], env.outPrior,
      .error (.systemExit "Windows builds must be run on Windows hosts")⟩
  else if env.llamaCMakeExists = false then
    ⟨[], env.outPrior,
      .error (.systemExit
        "Missing submodule: third_party/llama.cpp. Run: git submodule update --init --recursive")⟩
  else
    match windows_backend_cache_vars args.arch args.backend with
    | .error e => ⟨[], env.outPrior, .error e⟩
    | .ok cache_vars =>
        if dictGet cache_vars "GGML_CUDA" = some "ON" ∧
            env.which "nvcc" = none ∧ env.which "nvcc.exe" = none then
          ⟨[], env.outPrior,
            .error (.systemExit
              "Windows CUDA backend build requires CUDA (nvcc not found in PATH)")⟩
        else
          let preset := "windows-" ++ args.arch ++ "-full"
          let extra := cmake_cache_args cache_vars
          let extra := extra ++
            (match env.vcpkgRoot with
             | some root =>
                 if dictGet cache_vars "GGML_BLAS" = some "ON" ∧
                     env.vcpkgToolchainIsFile then
                   ["-DCMAKE_TOOLCHAIN_FILE=" ++ root ++
                      "/scripts/buildsystems/vcpkg.cmake",
                    "-DVCPKG_TARGET_TRIPLET=" ++
                      ((windowsVcpkgTriplet args.arch).getD "")]
                 else []
             | none => [])
          let sdk :=
            if dictGet cache_vars "GGML_VULKAN" = some "ON" then env.vulkanSdk
            else none
          let extra := extra ++
            (match sdk with
             | some root =>
                 (if args.arch = "x64" then
                    ["-DVulkan_ROOT=" ++ root,
                     "-DVulkan_INCLUDE_DIR=" ++ root ++ "/Include"] ++
                      (match env.vulkanLib with
                       | some lib => ["-DVulkan_LIBRARY=" ++ lib]
                       | none => [])
                  else []) ++
                   (match env.glslc with
                    | some g => ["-DVulkan_GLSLC_EXECUTABLE=" ++ g]
                    | none => [])
             | none => [])
          match configure_and_build env.exitOf preset args.jobs extra with
          | (t, .error e) => ⟨t, env.outPrior, .error e⟩
          | (t, .ok build_dir) =>
              match copy_runtime_libraries build_dir env.buildTree env.outPrior with
              | (outF, .error e) => ⟨t, outF, .error e⟩
              | (outF, .ok _) => ⟨t, outF, .ok ()⟩

/-- The resolved cache variables of (linux, x64, full). -/
def linuxFullX64CacheVars : List (String × String) :=
  [("GGML_VULKAN", "ON"), ("GGML_OPENCL", "OFF"), ("GGML_CUDA", "ON"),
   ("GGML_BLAS", "ON"), ("GGML_ZENDNN", "OFF"), ("GGML_CPU_KLEIDIAI", "OFF"),
   ("GGML_BLAS_VENDOR", "OpenBLAS")]

/-- A linux host environment with no discoverable tools, empty build
tree, and all external commands succeeding. -/
def sampleLinuxEnv : LinuxEnv :=
  { system := "linux", machine := "x86_64", which := fun _ => none,
    llamaCMakeExists := true, zendnnCMake := none, exitOf := fun _ => 0,
    buildTree := [], outPrior := none }

/-- A windows host environment with no discoverable tools. -/
def sampleWindowsEnv : WindowsEnv :=
  { system := "windows", which := fun _ => none, llamaCMakeExists := true,
    exitOf := fun _ => 0, vcpkgRoot := none, vcpkgToolchainIsFile := false,
    vulkanSdk := none, vulkanLib := none, glslc := none, buildTree := [],
    outPrior := none }

/-- The resolved cache variables of (linux, arm64, vulkan). -/
def linuxVulkanArm64CacheVars : List (String × String) :=
  [("GGML_VULKAN", "ON"), ("GGML_OPENCL", "OFF"), ("GGML_CUDA", "OFF"),
   ("GGML_BLAS", "OFF"), ("GGML_ZENDNN", "OFF"), ("GGML_CPU_KLEIDIAI", "ON")]

/-- An x64 linux host on which both aarch64 cross compilers are
discoverable. -/
def crossLinuxEnv : LinuxEnv :=
  { system := "linux", machine := "x86_64",
    which := fun tool =>
      if tool = "aarch64-linux-gnu-gcc" then some "/usr/bin/aarch64-linux-gnu-gcc"
      else if tool = "aarch64-linux-gnu-g++" then some "/usr/bin/aarch64-linux-gnu-g++"
      else none,
    llamaCMakeExists := true, zendnnCMake := none, exitOf := fun _ => 0,
    buildTree := [], outPrior := none }

/-- The resolved cache variables of (linux, x64, vulkan). -/
def linuxVulkanX64CacheVars : List (String × String) :=
  [("GGML_VULKAN", "ON"), ("GGML_OPENCL", "OFF"), ("GGML_CUDA", "OFF"),
   ("GGML_BLAS", "OFF"), ("GGML_ZENDNN", "OFF"), ("GGML_CPU_KLEIDIAI", "OFF")]

/-- An arm64 linux host with no discoverable tools, on which every
external command succeeds and the build tree holds runtime libraries. -/
def arm64HostEnv : LinuxEnv :=
  { system := "linux", machine := "aarch64", which := fun _ => none,
    llamaCMakeExists := true, zendnnCMake := none, exitOf := fun _ => 0,
    buildTree := exampleTreeGgml, outPrior := none }

/-! The theorems. -/

/-- C1: for every supported (platform, architecture, backend) triple, the
resolved cache variables bind every capability key of the platform's closed
key set, to `"ON"` exactly for the capabilities implied by the request and
to `"OFF"` for all others; no capability key is absent or bound to another
value. -/
theorem backend_cache_vars_complete_on_off :
    (∀ arch ∈ ["x64", "arm64"], ∀ backend ∈ LINUX_BACKENDS,
      (backend = "cuda" → arch = "x64") →
      capComplete (linux_backend_cache_vars arch backend)
        linuxCapabilityKeys (linuxImpliedOn arch backend) = true) ∧
    (∀ arch ∈ ["x64", "arm64"], ∀ backend ∈ WINDOWS_BACKENDS,
      (backend = "cuda" → arch = "x64") →
      capComplete (windows_backend_cache_vars arch backend)
        windowsCapabilityKeys (windowsImpliedOn arch backend) = true) ∧
    (∀ abi ∈ ["arm64-v8a", "x86_64"], ∀ backend ∈ ANDROID_BACKENDS,
      capComplete (.ok (android_backend_cache_vars abi backend))
        androidCapabilityKeys (androidImpliedOn abi backend) = true) := by
  refine ⟨?_, ?_, ?_⟩ <;> decide

/-- Witness for C1 at the concrete triples (linux, arm64, full),
(windows, x64, blas) and (android, x86_64, opencl). -/
theorem backend_cache_vars_complete_on_off_witness :
    capComplete (linux_backend_cache_vars "arm64" "full")
      linuxCapabilityKeys (linuxImpliedOn "arm64" "full") = true ∧
    capComplete (windows_backend_cache_vars "x64" "blas")
      windowsCapabilityKeys (windowsImpliedOn "x64" "blas") = true ∧
    capComplete (.ok (android_backend_cache_vars "x86_64" "opencl"))
      androidCapabilityKeys (androidImpliedOn "x86_64" "opencl") = true :=
  ⟨backend_cache_vars_complete_on_off.1 "arm64" (by decide) "full" (by decide)
      (by decide),
   backend_cache_vars_complete_on_off.2.1 "x64" (by decide) "blas" (by decide)
      (by decide),
   backend_cache_vars_complete_on_off.2.2 "x86_64" (by decide) "opencl" (by decide)⟩

/-! ### Lemmas about `hasPrefixL`, `containsL` and `replaceL` -/

@[simp] theorem hasPrefixL_nil_left (s : List Char) : hasPrefixL [] s = true := by
  cases s <;> rfl

@[simp] theorem hasPrefixL_cons (a : Char) (p : List Char) (b : Char) (s : List Char) :
    hasPrefixL (a :: p) (b :: s) = (a == b && hasPrefixL p s) := rfl

theorem hasPrefixL_nil_right (p : List Char) : hasPrefixL p [] = true ↔ p = [] := by
  cases p <;> simp [hasPrefixL]

theorem hasPrefixL_iff (p s : List Char) :
    hasPrefixL p s = true ↔ ∃ t, s = p ++ t := by
  induction p generalizing s with
  | nil => simp
  | cons a p ih =>
      cases s with
      | nil =>
          simp only [hasPrefixL, List.cons_append]
          constructor
          · intro h; cases h
          · rintro ⟨t, ht⟩; cases ht
      | cons b s =>
          rw [hasPrefixL_cons, Bool.and_eq_true, beq_iff_eq, ih]
          constructor
          · rintro ⟨hab, t, ht⟩
            exact ⟨t, by rw [List.cons_append, hab, ht]⟩
          · rintro ⟨t, ht⟩
            rw [List.cons_append] at ht
            injection ht with h1 h2
            exact ⟨h1.symm, t, h2⟩

theorem hasPrefixL_append_self (p t : List Char) : hasPrefixL p (p ++ t) = true :=
  (hasPrefixL_iff p (p ++ t)).2 ⟨t, rfl⟩

theorem hasPrefixL_of_append (p a b : List Char) (h : hasPrefixL p (a ++ b) = true)
    (hle : p.length ≤ a.length) : hasPrefixL p a = true := by
  induction p generalizing a with
  | nil => simp
  | cons x p ih =>
      cases a with
      | nil => simp at hle
      | cons y a =>
          rw [List.cons_append, hasPrefixL_cons, Bool.and_eq_true] at h
          rw [hasPrefixL_cons, Bool.and_eq_true]
          exact ⟨h.1, ih a h.2 (by simp only [List.length_cons] at hle; omega)⟩

@[simp] theorem containsL_nil (p : List Char) : containsL p [] = hasPrefixL p [] := rfl

@[simp] theorem containsL_cons (p : List Char) (c : Char) (s : List Char) :
    containsL p (c :: s) = (hasPrefixL p (c :: s) || containsL p s) := rfl

theorem containsL_of_hasPrefixL {p s : List Char} (h : hasPrefixL p s = true) :
    containsL p s = true := by
  cases s with
  | nil => simpa using h
  | cons c s => simp [h]

theorem containsL_append_left {p t : List Char} (u : List Char)
    (h : containsL p t = true) : containsL p (u ++ t) = true := by
  induction u with
  | nil => simpa using h
  | cons c u ih => simp [ih]

theorem replaceL_nil (old new : List Char) : replaceL old new [] = [] := by
  rw [replaceL]

theorem replaceL_match (a : Char) (p new t : List Char) :
    replaceL (a :: p) new (a :: (p ++ t)) = new ++ replaceL (a :: p) new t := by
  rw [replaceL]
  have h2 : hasPrefixL (a :: p) (a :: (p ++ t)) = true := hasPrefixL_append_self _ _
  simp [h2, List.drop_left]

theorem replaceL_append (old new t : List Char) (h : old ≠ []) :
    replaceL old new (old ++ t) = new ++ replaceL old new t := by
  cases old with
  | nil => exact absurd rfl h
  | cons a p => rw [List.cons_append]; exact replaceL_match a p new t

theorem replaceL_no_match {old : List Char} (new : List Char) {c : Char} {rest : List Char}
    (h : hasPrefixL old (c :: rest) = false) :
    replaceL old new (c :: rest) = c :: replaceL old new rest := by
  have hne : old.isEmpty = false := by
    cases old with
    | nil => simp at h
    | cons x xs => rfl
  rw [replaceL]
  simp [hne, h]

theorem containsL_new_replaceL {old : List Char} (new : List Char) {s : List Char}
    (hold : old ≠ []) (h : containsL old s = true) :
    containsL new (replaceL old new s) = true := by
  induction s with
  | nil =>
      cases old with
      | nil => exact absurd rfl hold
      | cons a p => simp [hasPrefixL] at h
  | cons c rest ih =>
      rw [containsL_cons, Bool.or_eq_true] at h
      by_cases hp : hasPrefixL old (c :: rest) = true
      · obtain ⟨t, ht⟩ := (hasPrefixL_iff _ _).1 hp
        rw [ht, replaceL_append old new t hold]
        exact containsL_of_hasPrefixL (hasPrefixL_append_self new _)
      · have hpf : hasPrefixL old (c :: rest) = false := by
          cases hq : hasPrefixL old (c :: rest) with
          | false => rfl
          | true => exact absurd hq hp
        rw [replaceL_no_match new hpf, containsL_cons]
        have hrest : containsL old rest = true := by
          rcases h with h | h
          · rw [h] at hpf; cases hpf
          · exact h
        rw [ih hrest, Bool.or_true]

theorem drop_succ_cons (l : List Char) (j : Nat) (hj : j < l.length) :
    ∃ x, l.drop j = x :: l.drop (j + 1) := by
  induction l generalizing j with
  | nil => simp at hj
  | cons a l ih =>
      cases j with
      | zero => exact ⟨a, rfl⟩
      | succ j => simpa using ih j (by simpa using hj)

/-- Analysis of a partial occurrence of `new` inside the output of
`replaceL old new s`: either the remaining part of `new` also occurs at
the corresponding position of `s` itself, or `new` has a nontrivial
border (a proper suffix that is also a prefix). -/
theorem replaceL_drop_analysis (old new : List Char) (hold : old ≠ []) :
    ∀ s : List Char, ∀ j : Nat, 0 < j →
      hasPrefixL (new.drop j) (replaceL old new s) = true →
      hasPrefixL (new.drop j) s = true ∨
        ∃ d, 0 < d ∧ d < new.length ∧ hasPrefixL (new.drop d) new = true := by
  intro s
  induction s with
  | nil =>
      intro j hj h
      rw [replaceL_nil] at h
      left
      have hempty : new.drop j = [] := (hasPrefixL_nil_right _).1 h
      rw [hempty]
      exact hasPrefixL_nil_left _
  | cons c rest ih =>
      intro j hj h
      by_cases hp : hasPrefixL old (c :: rest) = true
      · obtain ⟨t, ht⟩ := (hasPrefixL_iff _ _).1 hp
        rw [ht, replaceL_append old new t hold] at h
        by_cases hjl : new.length ≤ j
        · left
          have hempty : new.drop j = [] := List.drop_eq_nil_of_le hjl
          rw [hempty]
          exact hasPrefixL_nil_left _
        · right
          refine ⟨j, hj, by omega, ?_⟩
          exact hasPrefixL_of_append _ _ _ h (by simp only [List.length_drop]; omega)
      · have hpf : hasPrefixL old (c :: rest) = false := by
          cases hq : hasPrefixL old (c :: rest) with
          | false => rfl
          | true => exact absurd hq hp
        rw [replaceL_no_match new hpf] at h
        by_cases hjl : new.length ≤ j
        · left
          have hempty : new.drop j = [] := List.drop_eq_nil_of_le hjl
          rw [hempty]
          exact hasPrefixL_nil_left _
        · obtain ⟨x, hx⟩ := drop_succ_cons new j (by omega)
          rw [hx, hasPrefixL_cons, Bool.and_eq_true] at h
          obtain ⟨hxc, htail⟩ := h
          rcases ih (j + 1) (by omega) htail with hl | hr
          · left
            rw [hx, hasPrefixL_cons, Bool.and_eq_true]
            exact ⟨hxc, hl⟩
          · right
            exact hr

theorem hasPrefixL_cons_elim {p : List Char} {c : Char} {s : List Char}
    (hp : p ≠ []) (h : hasPrefixL p (c :: s) = true) :
    hasPrefixL (p.drop 1) s = true := by
  cases p with
  | nil => exact absurd rfl hp
  | cons x pt =>
      rw [hasPrefixL_cons, Bool.and_eq_true] at h
      exact h.2

theorem hasPrefixL_cons_rebuild {p : List Char} {c : Char} {s : List Char}
    (hp : p ≠ []) (h : hasPrefixL p (c :: s) = true) :
    ∀ t : List Char, hasPrefixL (p.drop 1) t = true →
      hasPrefixL p (c :: t) = true := by
  cases p with
  | nil => exact absurd rfl hp
  | cons x pt =>
      intro t ht
      rw [hasPrefixL_cons, Bool.and_eq_true] at h ⊢
      exact ⟨h.1, ht⟩

/-- If `new` is border-free, does not occur in `s`, and `old` does not
match at the head of `s`, then `new` does not match at the head of the
replacement output either. -/
theorem hasPrefix_new_replaceL_false (old new : List Char) (hold : old ≠ [])
    (hnew : new ≠ [])
    (hbf : ∀ d, 0 < d → d < new.length → hasPrefixL (new.drop d) new = false)
    {s : List Char} (hnc : containsL new s = false)
    (hnp : hasPrefixL old s = false) :
    hasPrefixL new (replaceL old new s) = false := by
  cases s with
  | nil =>
      rw [replaceL_nil]
      cases new with
      | nil => exact absurd rfl hnew
      | cons n0 nt => rfl
  | cons c rest =>
      rw [replaceL_no_match new hnp]
      by_contra hcon
      rw [Bool.not_eq_false] at hcon
      have htail : hasPrefixL (new.drop 1) (replaceL old new rest) = true :=
        hasPrefixL_cons_elim hnew hcon
      have hana := replaceL_drop_analysis old new hold rest 1 (by omega) htail
      rcases hana with hl | ⟨d, hd0, hdl, hdp⟩
      · have hps : hasPrefixL new (c :: rest) = true :=
          hasPrefixL_cons_rebuild hnew hcon rest hl
        have hcs := containsL_of_hasPrefixL hps
        rw [hcs] at hnc
        cases hnc
      · have hfalse := hbf d hd0 hdl
        rw [hdp] at hfalse
        cases hfalse

/-- Round trip of Python `str.replace`: if `new` does not occur in `s`
and `new` is border-free, replacing `old` by `new` and then `new` by
`old` restores `s` exactly. -/
theorem replaceL_round_trip (old new : List Char) (hold : old ≠ []) (hnew : new ≠ [])
    (hbf : ∀ d, 0 < d → d < new.length → hasPrefixL (new.drop d) new = false) :
    ∀ n : Nat, ∀ s : List Char, s.length ≤ n → containsL new s = false →
      replaceL new old (replaceL old new s) = s := by
  intro n
  induction n with
  | zero =>
      intro s hs hnc
      have hz : s = [] := List.length_eq_zero.1 (Nat.le_zero.1 hs)
      rw [hz, replaceL_nil, replaceL_nil]
  | succ n ih =>
      intro s hs hnc
      by_cases hp : hasPrefixL old s = true
      · obtain ⟨t, ht⟩ := (hasPrefixL_iff _ _).1 hp
        have holdlen : 0 < old.length := List.length_pos.2 hold
        have hlt : t.length ≤ n := by
          rw [ht, List.length_append] at hs
          omega
        have hct : containsL new t = false := by
          cases hc : containsL new t with
          | false => rfl
          | true =>
              have := containsL_append_left old hc
              rw [← ht, hnc] at this
              cases this
        rw [ht, replaceL_append old new t hold, replaceL_append new old _ hnew,
          ih t hlt hct]
      · have hpf : hasPrefixL old s = false := by
          cases hq : hasPrefixL old s with
          | false => rfl
          | true => exact absurd hq hp
        cases s with
        | nil => rw [replaceL_nil, replaceL_nil]
        | cons c rest =>
            have hQ := hasPrefix_new_replaceL_false old new hold hnew hbf hnc hpf
            rw [replaceL_no_match new hpf] at hQ
            have hnc' : containsL new rest = false := by
              rw [containsL_cons, Bool.or_eq_false_iff] at hnc
              exact hnc.2
            rw [replaceL_no_match new hpf, replaceL_no_match old hQ,
              ih rest (by simp only [List.length_cons] at hs; omega) hnc']

theorem zendnnNew_border_free_aux :
    ∀ d, d < zendnnNew.length →
      (0 < d → hasPrefixL (zendnnNew.drop d) zendnnNew = false) := by
  decide

/-- The patched install command has no nontrivial border: no proper suffix
of it is also a prefix of it. -/
theorem zendnnNew_border_free :
    ∀ d, 0 < d → d < zendnnNew.length →
      hasPrefixL (zendnnNew.drop d) zendnnNew = false :=
  fun d h1 h2 => zendnnNew_border_free_aux d h2 h1

/-- C3: on any file content where the patched string is absent and the
legacy string present, the first apply performs the substitution and
returns `true`; a second apply returns `false` and leaves the content
unchanged; restore after apply returns content byte-identical to the
original; and restore on content without the patched string is a no-op. -/
theorem zendnn_patch_apply_twice_and_restore (text : List Char) :
    (containsL zendnnNew text = false → containsL zendnnOld text = true →
      patch_llama_zendnn_install_target (some text) =
        (some (replaceL zendnnOld zendnnNew text), .ok true) ∧
      patch_llama_zendnn_install_target (some (replaceL zendnnOld zendnnNew text)) =
        (some (replaceL zendnnOld zendnnNew text), .ok false) ∧
      restore_llama_zendnn_install_target (some (replaceL zendnnOld zendnnNew text)) =
        some text) ∧
    (containsL zendnnNew text = false →
      restore_llama_zendnn_install_target (some text) = some text) := by
  constructor
  · intro hnc ho
    have hold : zendnnOld ≠ [] := by decide
    have hnew : zendnnNew ≠ [] := by decide
    have hcontains : containsL zendnnNew (replaceL zendnnOld zendnnNew text) = true :=
      containsL_new_replaceL zendnnNew hold ho
    refine ⟨?_, ?_, ?_⟩
    · simp [patch_llama_zendnn_install_target, hnc, ho]
    · simp [patch_llama_zendnn_install_target, hcontains]
    · simp only [restore_llama_zendnn_install_target, hcontains]
      rw [if_neg (by simp), replaceL_round_trip zendnnOld zendnnNew hold hnew
        zendnnNew_border_free text.length text le_rfl hnc]
  · intro hnc
    simp [restore_llama_zendnn_install_target, hnc]

/-- Witness for C3 at the concrete file content consisting of exactly the
legacy install command. -/
theorem zendnn_patch_apply_twice_and_restore_witness :
    (containsL zendnnNew zendnnOld = false ∧ containsL zendnnOld zendnnOld = true) ∧
    (patch_llama_zendnn_install_target (some zendnnOld) =
        (some (replaceL zendnnOld zendnnNew zendnnOld), .ok true) ∧
      patch_llama_zendnn_install_target (some (replaceL zendnnOld zendnnNew zendnnOld)) =
        (some (replaceL zendnnOld zendnnNew zendnnOld), .ok false) ∧
      restore_llama_zendnn_install_target (some (replaceL zendnnOld zendnnNew zendnnOld)) =
        some zendnnOld) ∧
    restore_llama_zendnn_install_target (some zendnnOld) = some zendnnOld :=
  ⟨⟨by decide, by decide⟩,
   (zendnn_patch_apply_twice_and_restore zendnnOld).1 (by decide) (by decide),
   (zendnn_patch_apply_twice_and_restore zendnnOld).2 (by decide)⟩

/-! ### Dictionary, sorting and selection lemmas -/

theorem dictGet_dictSet_self {α : Type} (d : List (String × α)) (k : String) (v : α) :
    dictGet (dictSet d k v) k = some v := by
  induction d with
  | nil => simp [dictSet, dictGet]
  | cons kv rest ih =>
      obtain ⟨k', v'⟩ := kv
      rw [dictSet]
      by_cases h : k' = k
      · rw [if_pos h, dictGet, if_pos rfl]
      · rw [if_neg h, dictGet, if_neg h]
        exact ih

theorem dictGet_dictSet_ne {α : Type} (d : List (String × α)) (k k' : String) (v : α)
    (h : k' ≠ k) : dictGet (dictSet d k' v) k = dictGet d k := by
  induction d with
  | nil => simp [dictSet, dictGet, h]
  | cons kv rest ih =>
      obtain ⟨k0, v0⟩ := kv
      rw [dictSet]
      by_cases h0 : k0 = k'
      · rw [if_pos h0, dictGet, dictGet, if_neg h, h0, if_neg h]
      · rw [if_neg h0, dictGet, dictGet]
        by_cases hk : k0 = k
        · rw [if_pos hk, if_pos hk]
        · rw [if_neg hk, if_neg hk]
          exact ih

theorem mem_dictSet {α : Type} {kv : String × α} {d : List (String × α)}
    {k : String} {v : α} (h : kv ∈ dictSet d k v) : kv = (k, v) ∨ kv ∈ d := by
  induction d with
  | nil => simpa [dictSet] using h
  | cons kv0 rest ih =>
      obtain ⟨k0, v0⟩ := kv0
      rw [dictSet] at h
      by_cases h0 : k0 = k
      · rw [if_pos h0] at h
        rcases List.mem_cons.1 h with h1 | h1
        · exact Or.inl h1
        · exact Or.inr (List.mem_cons_of_mem _ h1)
      · rw [if_neg h0] at h
        rcases List.mem_cons.1 h with h1 | h1
        · exact Or.inr (by simp [h1])
        · rcases ih h1 with h2 | h2
          · exact Or.inl h2
          · exact Or.inr (List.mem_cons_of_mem _ h2)

theorem dictGet_isSome_dictSet {α : Type} (d : List (String × α)) (k k' : String)
    (v : α) (h : (dictGet d k).isSome = true) :
    (dictGet (dictSet d k' v) k).isSome = true := by
  by_cases hk : k' = k
  · rw [hk, dictGet_dictSet_self]
    rfl
  · rw [dictGet_dictSet_ne d k k' v hk]
    exact h

theorem dictGet_mem {α : Type} {d : List (String × α)} {k : String} {v : α}
    (h : dictGet d k = some v) : (k, v) ∈ d := by
  induction d with
  | nil => simp [dictGet] at h
  | cons kv rest ih =>
      obtain ⟨k0, v0⟩ := kv
      rw [dictGet] at h
      by_cases hk : k0 = k
      · rw [if_pos hk] at h
        injection h with h
        simp [hk, h]
      · rw [if_neg hk] at h
        exact List.mem_cons_of_mem _ (ih h)

theorem sortBy_cons {α : Type} (key : α → String) (z : α) (zs : List α) :
    sortBy key (z :: zs) = insertSorted key z (sortBy key zs) := rfl

theorem mem_insertSorted {α : Type} (key : α → String) (x y : α) (l : List α) :
    y ∈ insertSorted key x l ↔ y = x ∨ y ∈ l := by
  induction l with
  | nil => simp [insertSorted]
  | cons z zs ih =>
      rw [insertSorted]
      by_cases h : strLt (key x) (key z) = true
      · simp only [if_pos h, List.mem_cons]
      · simp only [if_neg h, List.mem_cons, ih]
        tauto

theorem mem_sortBy {α : Type} (key : α → String) (x : α) (l : List α) :
    x ∈ sortBy key l ↔ x ∈ l := by
  induction l with
  | nil => simp [sortBy]
  | cons z zs ih =>
      rw [sortBy_cons, mem_insertSorted, ih, List.mem_cons]

theorem collect_fold_sound (tree : List FsEntry) :
    ∀ acc : List (String × FsEntry),
      (∀ kv ∈ acc, is_runtime_library kv.2 = true ∧ kv.1 = kv.2.name) →
      ∀ kv ∈ tree.foldl collectStep acc,
        is_runtime_library kv.2 = true ∧ kv.1 = kv.2.name := by
  induction tree with
  | nil => intro acc hacc kv hkv; exact hacc kv hkv
  | cons p rest ih =>
      intro acc hacc kv hkv
      rw [List.foldl_cons] at hkv
      refine ih (collectStep acc p) ?_ kv hkv
      intro kv0 hkv0
      rw [collectStep] at hkv0
      by_cases hq : is_runtime_library p = true
      · rw [if_pos hq] at hkv0
        rcases mem_dictSet hkv0 with h1 | h1
        · rw [h1]
          exact ⟨hq, rfl⟩
        · exact hacc kv0 h1
      · rw [if_neg hq] at hkv0
        exact hacc kv0 hkv0

theorem collect_fold_keeps (tree : List FsEntry) :
    ∀ (acc : List (String × FsEntry)) (k : String),
      (dictGet acc k).isSome = true →
      (dictGet (tree.foldl collectStep acc) k).isSome = true := by
  induction tree with
  | nil => intro acc k h; exact h
  | cons p rest ih =>
      intro acc k h
      rw [List.foldl_cons]
      refine ih (collectStep acc p) k ?_
      rw [collectStep]
      by_cases hq : is_runtime_library p = true
      · rw [if_pos hq]
        exact dictGet_isSome_dictSet acc k p.name p h
      · rw [if_neg hq]
        exact h

theorem collect_fold_presence (tree : List FsEntry) :
    ∀ (acc : List (String × FsEntry)) (p : FsEntry), p ∈ tree →
      is_runtime_library p = true →
      (dictGet (tree.foldl collectStep acc) p.name).isSome = true := by
  induction tree with
  | nil => intro acc p hp; cases hp
  | cons q rest ih =>
      intro acc p hp hq
      rw [List.foldl_cons]
      rcases List.mem_cons.1 hp with h1 | h1
      · refine collect_fold_keeps rest (collectStep acc q) p.name ?_
        rw [h1, collectStep, if_pos (h1 ▸ hq), dictGet_dictSet_self]
        rfl
      · exact ih (collectStep acc q) p h1 hq

theorem collect_runtime_libraries_eq (build_dir : String) (tree : List FsEntry) :
    collect_runtime_libraries build_dir tree =
      (if (sortBy (fun p => p.path) tree).foldl collectStep [] = [] then
        .error (.systemExit ("No runtime libraries found under " ++ build_dir))
      else
        .ok ((sortBy (fun kv => kv.1)
          ((sortBy (fun p => p.path) tree).foldl collectStep [])).map (fun kv => kv.2))) :=
  rfl

/-- C5 counterexample: on the spec's literal example tree
(`libfoo.so`, `libfoo.so.0`, `libfoo.so.0.0.0`, `libbar.dylib`) collection
fails outright, because `libfoo`/`libbar` are not among the fixed
product-name prefixes; and on the same tree transposed onto allowlisted
names, collection returns the `.dylib` entry together with the `.so`
entry, so the selection is not restricted to any single platform's
library extension. -/
theorem collect_runtime_libraries_spec_example_refuted :
    collect_runtime_libraries "build" exampleTreeFoo =
      .error (.systemExit "No runtime libraries found under build") ∧
    collect_runtime_libraries "build" exampleTreeGgml =
      .ok [⟨"libggml.so", "libggml.so", true⟩,
        ⟨"libllama.dylib", "libllama.dylib", true⟩] :=
  ⟨rfl, rfl⟩

/-- C5 (amended): collection selects exactly the regular files whose
lowercased basename ends in one of the native shared-library extensions
`.dll`, `.dylib` or `.so` (all conventions accepted together, not one
platform's) and starts with one of the fixed product-name prefixes;
versioned aliases are never selected; on the allowlisted example tree the
result is exactly the canonical `libggml.so` and `libllama.dylib`
entries. -/
theorem collect_runtime_libraries_selection :
    (∀ (build_dir : String) (tree : List FsEntry) (l : List FsEntry),
      collect_runtime_libraries build_dir tree = .ok l →
      (∀ q ∈ l, is_runtime_library q = true) ∧
      (∀ p ∈ tree, is_runtime_library p = true → ∃ q ∈ l, q.name = p.name)) ∧
    collect_runtime_libraries "build" exampleTreeGgml =
      .ok [⟨"libggml.so", "libggml.so", true⟩,
        ⟨"libllama.dylib", "libllama.dylib", true⟩] := by
  constructor
  · intro build_dir tree l h
    rw [collect_runtime_libraries_eq] at h
    by_cases hempty : (sortBy (fun p => p.path) tree).foldl collectStep [] = []
    · rw [if_pos hempty] at h
      exact Except.noConfusion h
    · rw [if_neg hempty] at h
      injection h with h
      have hinv := collect_fold_sound (sortBy (fun p => p.path) tree) []
        (by intro kv hkv; cases hkv)
      constructor
      · intro q hq
        rw [← h, List.mem_map] at hq
        obtain ⟨kv, hkv, hkvq⟩ := hq
        rw [mem_sortBy] at hkv
        rw [← hkvq]
        exact (hinv kv hkv).1
      · intro p hp hq
        have hpres := collect_fold_presence (sortBy (fun e => e.path) tree) [] p
          ((mem_sortBy _ p tree).2 hp) hq
        obtain ⟨v, hv⟩ := Option.isSome_iff_exists.1 hpres
        have hmem := dictGet_mem hv
        refine ⟨v, ?_, ?_⟩
        · rw [← h, List.mem_map]
          exact ⟨(p.name, v), (mem_sortBy _ _ _).2 hmem, rfl⟩
        · exact (hinv (p.name, v) hmem).2.symm
  · rfl

/-- Witness for C5's amended theorem at the allowlisted example tree. -/
theorem collect_runtime_libraries_selection_witness :
    collect_runtime_libraries "build" exampleTreeGgml =
      .ok [⟨"libggml.so", "libggml.so", true⟩,
        ⟨"libllama.dylib", "libllama.dylib", true⟩] ∧
    is_runtime_library ⟨"libllama.dylib", "libllama.dylib", true⟩ = true :=
  ⟨rfl,
    (collect_runtime_libraries_selection.1 "build" exampleTreeGgml
        [⟨"libggml.so", "libggml.so", true⟩,
          ⟨"libllama.dylib", "libllama.dylib", true⟩] rfl).1
      ⟨"libllama.dylib", "libllama.dylib", true⟩ (by simp)⟩

theorem copy_output_fold (libs : List FsEntry) :
    ∀ acc : List String,
      libs.foldl (fun dir src => copy_output dir src.name) (some acc) =
        some (acc ++ libs.map (fun p => p.name)) := by
  induction libs with
  | nil => intro acc; simp
  | cons p rest ih =>
      intro acc
      rw [List.foldl_cons]
      have hstep : copy_output (some acc) p.name = some (acc ++ [p.name]) := rfl
      rw [hstep, ih]
      simp

/-- C6: when collection succeeds, the copy step resets the destination
directory and then copies the collected artifacts, so the destination
afterwards contains exactly the current run's artifacts, for every prior
destination state. -/
theorem copy_runtime_libraries_reset_then_copy (build_dir : String)
    (tree : List FsEntry) (out_dir : Option (List String)) (libs : List FsEntry)
    (h : collect_runtime_libraries build_dir tree = .ok libs) :
    copy_runtime_libraries build_dir tree out_dir =
      (some (libs.map (fun p => p.name)), .ok ()) := by
  simp only [copy_runtime_libraries, h, reset_dir]
  rw [copy_output_fold libs []]
  simp

/-- Witness for C6: a destination holding stale files from a previous run
ends up holding exactly the current artifacts. -/
theorem copy_runtime_libraries_reset_then_copy_witness :
    collect_runtime_libraries "build" exampleTreeGgml =
      .ok [⟨"libggml.so", "libggml.so", true⟩,
        ⟨"libllama.dylib", "libllama.dylib", true⟩] ∧
    copy_runtime_libraries "build" exampleTreeGgml (some ["stale.so", "old.txt"]) =
      (some ["libggml.so", "libllama.dylib"], .ok ()) := by
  refine ⟨rfl, ?_⟩
  have := copy_runtime_libraries_reset_then_copy "build" exampleTreeGgml
    (some ["stale.so", "old.txt"])
    [⟨"libggml.so", "libggml.so", true⟩, ⟨"libllama.dylib", "libllama.dylib", true⟩] rfl
  simpa using this

/-- C10: when collection finds no qualifying runtime library, the copy
step fails before the destination-directory reset, leaving the
destination (and its prior contents) unchanged. -/
theorem copy_runtime_libraries_error_before_reset (build_dir : String)
    (tree : List FsEntry) (out_dir : Option (List String)) (e : PyErr)
    (h : collect_runtime_libraries build_dir tree = .error e) :
    copy_runtime_libraries build_dir tree out_dir = (out_dir, .error e) := by
  simp only [copy_runtime_libraries, h]

/-- Witness for C10 at the non-allowlisted example tree with a stale
destination. -/
theorem copy_runtime_libraries_error_before_reset_witness :
    collect_runtime_libraries "build" exampleTreeFoo =
      .error (.systemExit "No runtime libraries found under build") ∧
    copy_runtime_libraries "build" exampleTreeFoo (some ["stale.so"]) =
      (some ["stale.so"], .error (.systemExit "No runtime libraries found under build")) :=
  ⟨rfl, copy_runtime_libraries_error_before_reset "build" exampleTreeFoo
    (some ["stale.so"]) _ rfl⟩

/-! ### Build pipeline theorems -/

/-- C7: `configure_and_build` runs configure strictly before build.  The
characterization shows: on a non-zero configure exit the run stops with
that exit code and the build command is never invoked; on a non-zero
build exit the run stops with that exit code; each command is invoked at
most once (no retries); the configure command is
`cmake --preset <preset> <extra>`, independent of the jobs hint, and the
`--parallel` hint is appended to the build command only.  The second
conjunct states the first invoked command is the same for every jobs
value. -/
theorem configure_and_build_ordering (exitOf : List String → Int)
    (preset : String) (jobs : Option Int) (extra : List String) :
    (configure_and_build exitOf preset jobs extra =
      if exitOf (["cmake", "--preset", preset] ++ extra) = 0 then
        if exitOf (["cmake", "--build", "--preset", preset] ++ jobsArgs jobs) = 0 then
          ([.ran (["cmake", "--preset", preset] ++ extra),
            .ran (["cmake", "--build", "--preset", preset] ++ jobsArgs jobs)],
            .ok (resolve_build_dir_for_preset preset))
        else
          ([.ran (["cmake", "--preset", preset] ++ extra),
            .ran (["cmake", "--build", "--preset", preset] ++ jobsArgs jobs)],
            .error (.calledProcess
              (exitOf (["cmake", "--build", "--preset", preset] ++ jobsArgs jobs))))
      else
        ([.ran (["cmake", "--preset", preset] ++ extra)],
          .error (.calledProcess (exitOf (["cmake", "--preset", preset] ++ extra))))) ∧
    (∀ jobs' : Option Int,
      (configure_and_build exitOf preset jobs' extra).1.head? =
        some (.ran (["cmake", "--preset", preset] ++ extra))) := by
  constructor
  · simp only [configure_and_build, runCmd, List.cons_append, List.nil_append]
    by_cases h1 : exitOf ("cmake" :: "--preset" :: preset :: extra) = 0
    · by_cases h2 :
        exitOf ("cmake" :: "--build" :: "--preset" :: preset :: jobsArgs jobs) = 0
      · simp [h1, h2]
      · simp [h1, h2]
    · simp [h1]
  · intro jobs'
    simp only [configure_and_build, runCmd, List.cons_append, List.nil_append]
    by_cases h1 : exitOf ("cmake" :: "--preset" :: preset :: extra) = 0
    · by_cases h2 :
        exitOf ("cmake" :: "--build" :: "--preset" :: preset :: jobsArgs jobs') = 0
      · simp [h1, h2]
      · simp [h1, h2]
    · simp [h1]

theorem configure_and_build_trace_head (exitOf : List String → Int)
    (preset : String) (jobs : Option Int) (extra : List String) :
    (configure_and_build exitOf preset jobs extra).1.head? =
      some (.ran (["cmake", "--preset", preset] ++ extra)) := by
  simp only [configure_and_build, runCmd, List.cons_append, List.nil_append]
  by_cases h1 : exitOf ("cmake" :: "--preset" :: preset :: extra) = 0
  · by_cases h2 :
      exitOf ("cmake" :: "--build" :: "--preset" :: preset :: jobsArgs jobs) = 0
    · simp [h1, h2]
    · simp [h1, h2]
  · simp [h1]

theorem configure_and_build_trace_ran (exitOf : List String → Int)
    (preset : String) (jobs : Option Int) (extra : List String) :
    ∀ e ∈ (configure_and_build exitOf preset jobs extra).1, ∃ c, e = .ran c := by
  simp only [configure_and_build, runCmd, List.cons_append, List.nil_append]
  by_cases h1 : exitOf ("cmake" :: "--preset" :: preset :: extra) = 0
  · by_cases h2 :
      exitOf ("cmake" :: "--build" :: "--preset" :: preset :: jobsArgs jobs) = 0
    · simp [h1, h2]
    · simp [h1, h2]
  · simp [h1]

theorem linux_cache_vars_zendnn_off :
    ∀ (arch backend : String) (cache_vars : List (String × String)),
      linux_backend_cache_vars arch backend = .ok cache_vars →
      dictGet cache_vars "GGML_ZENDNN" = some "OFF" := by
  intro arch backend cv h
  rw [linux_backend_cache_vars] at h
  by_cases hc : backend = "cuda" ∧ arch ≠ "x64"
  · rw [if_pos hc] at h
    exact Except.noConfusion h
  · rw [if_neg hc] at h
    injection h with h
    subst h
    by_cases h1 : backend = "full" ∨ backend = "vulkan" <;>
      by_cases h2 : backend = "full" ∨ backend = "cuda" <;>
        by_cases h3 : backend = "full" ∨ backend = "blas" <;>
          simp [h1, h2, h3, dictGet_dictSet_ne, dictGet]

theorem finally_trace_no_applied (env : LinuxEnv) (args : LinuxArgs)
    (preset : String) (extra : List String) (applied : Bool)
    (z : Option (List Char)) :
    BuildEvent.patchAppliedEv ∉
      (linux_build_collect_finally env args preset extra applied z).trace := by
  have hran := configure_and_build_trace_ran env.exitOf preset args.jobs extra
  unfold linux_build_collect_finally
  rcases hcb : configure_and_build env.exitOf preset args.jobs extra with ⟨t1, r1⟩
  rw [hcb] at hran
  have ht1 : BuildEvent.patchAppliedEv ∉ t1 := by
    intro hmem
    obtain ⟨c, hc⟩ := hran _ hmem
    cases hc
  cases r1 with
  | error e => cases applied <;> simp [List.mem_append, ht1]
  | ok bd =>
      rcases hcp : copy_runtime_libraries bd env.buildTree env.outPrior with ⟨outF, r2⟩
      cases r2 <;> cases applied <;> simp [hcp, List.mem_append, ht1]

theorem finally_zendnn_unchanged (env : LinuxEnv) (args : LinuxArgs)
    (preset : String) (extra : List String) (z : Option (List Char)) :
    (linux_build_collect_finally env args preset extra false z).zendnn = z := by
  unfold linux_build_collect_finally
  rcases hcb : configure_and_build env.exitOf preset args.jobs extra with ⟨t1, r1⟩
  cases r1 with
  | error e => simp
  | ok bd =>
      rcases hcp : copy_runtime_libraries bd env.buildTree env.outPrior with ⟨outF, r2⟩
      cases r2 <;> simp [hcp]

theorem build_linux_patch_dead (env : LinuxEnv) (args : LinuxArgs) :
    BuildEvent.patchAppliedEv ∉ (build_linux env args).trace ∧
    (build_linux env args).zendnn = env.zendnnCMake := by
  simp only [build_linux]
  by_cases h1 : env.system ≠ "linux"
  · rw [if_pos h1]
    exact ⟨by simp, rfl⟩
  · rw [if_neg h1]
    by_cases h2 : env.llamaCMakeExists = false
    · rw [if_pos h2]
      exact ⟨by simp, rfl⟩
    · rw [if_neg h2]
      cases harch : (match args.arch with
          | some a => Except.ok a
          | none => detect_linux_arch env.machine) with
      | error e => exact ⟨by simp, rfl⟩
      | ok arch =>
          dsimp only
          cases hcv : linux_backend_cache_vars arch args.backend with
          | error e => exact ⟨by simp, rfl⟩
          | ok cache_vars =>
              dsimp only
              cases hdet : detect_linux_arch env.machine with
              | error e => exact ⟨by simp, rfl⟩
              | ok host_arch =>
                  dsimp only
                  cases hcross : (if arch = "arm64" ∧ host_arch ≠ "arm64" then
                      match env.which "aarch64-linux-gnu-gcc",
                          env.which "aarch64-linux-gnu-g++" with
                      | some cc, some cxx =>
                          Except.ok (cmake_cache_args cache_vars ++
                            ["-DCMAKE_C_COMPILER=" ++ cc,
                             "-DCMAKE_CXX_COMPILER=" ++ cxx,
                             "-DCMAKE_SYSTEM_NAME=Linux",
                             "-DCMAKE_SYSTEM_PROCESSOR=aarch64"])
                      | _, _ =>
                          Except.error (PyErr.systemExit
                            "Cross compiler not found. Install aarch64-linux-gnu-gcc and aarch64-linux-gnu-g++")
                    else Except.ok (cmake_cache_args cache_vars)) with
                  | error e => exact ⟨by simp, rfl⟩
                  | ok extra_args =>
                      dsimp only
                      by_cases hnv : dictGet cache_vars "GGML_CUDA" = some "ON" ∧
                          env.which "nvcc" = none ∧ env.which "nvcc.exe" = none
                      · rw [if_pos hnv]
                        exact ⟨by simp, rfl⟩
                      · rw [if_neg hnv]
                        have hoff := linux_cache_vars_zendnn_off arch args.backend
                          cache_vars hcv
                        have hcond : ¬(arch = "x64" ∧
                            dictGet cache_vars "GGML_ZENDNN" = some "ON") := by
                          rintro ⟨_, hON⟩
                          rw [hoff] at hON
                          injection hON with hON
                          exact absurd hON (by decide)
                        rw [if_neg hcond]
                        refine ⟨?_, ?_⟩
                        · simp only [List.nil_append, if_neg]
                          simpa using finally_trace_no_applied env args
                            ("linux-" ++ arch ++ "-full") extra_args false
                            env.zendnnCMake
                        · simpa using finally_zendnn_unchanged env args
                            ("linux-" ++ arch ++ "-full") extra_args env.zendnnCMake

/-- C9: every successful linux cache-variable resolution binds
`GGML_ZENDNN` to `"OFF"`; consequently the patch-application condition of
`build_linux` (`arch == "x64" and cache_vars["GGML_ZENDNN"] == "ON"`) is
never satisfied and no linux build invocation ever applies the ZenDNN
patch. -/
theorem linux_zendnn_off_patch_never_applied :
    (∀ (arch backend : String) (cache_vars : List (String × String)),
      linux_backend_cache_vars arch backend = .ok cache_vars →
      dictGet cache_vars "GGML_ZENDNN" = some "OFF") ∧
    (∀ (env : LinuxEnv) (args : LinuxArgs),
      BuildEvent.patchAppliedEv ∉ (build_linux env args).trace) :=
  ⟨linux_cache_vars_zendnn_off,
   fun env args => (build_linux_patch_dead env args).1⟩

/-- Witness for C9 at (x64, full) and at a concrete linux invocation. -/
theorem linux_zendnn_off_patch_never_applied_witness :
    dictGet linuxFullX64CacheVars "GGML_ZENDNN" = some "OFF" ∧
    BuildEvent.patchAppliedEv ∉
      (build_linux sampleLinuxEnv ⟨some "x64", "full", false, none⟩).trace :=
  ⟨linux_zendnn_off_patch_never_applied.1 "x64" "full" linuxFullX64CacheVars rfl,
   linux_zendnn_off_patch_never_applied.2 sampleLinuxEnv
     ⟨some "x64", "full", false, none⟩⟩

/-- C4: in the guarded configure/build/collect step of `build_linux`,
when the ZenDNN patch had been applied the restore operation runs on
every exit path — configure failure, build failure, collection failure
and success alike — and leaves the file restored; moreover, a whole
`build_linux` invocation never terminates with the ZenDNN file changed
from its initial content. -/
theorem zendnn_patch_restored_on_all_paths :
    (∀ (env : LinuxEnv) (args : LinuxArgs) (preset : String)
        (extra : List String) (z : Option (List Char)),
      BuildEvent.patchRestoredEv ∈
        (linux_build_collect_finally env args preset extra true z).trace ∧
      (linux_build_collect_finally env args preset extra true z).zendnn =
        restore_llama_zendnn_install_target z) ∧
    (∀ (env : LinuxEnv) (args : LinuxArgs),
      (build_linux env args).zendnn = env.zendnnCMake) := by
  constructor
  · intro env args preset extra z
    unfold linux_build_collect_finally
    rcases hcb : configure_and_build env.exitOf preset args.jobs extra with ⟨t1, r1⟩
    cases r1 with
    | error e => simp
    | ok bd =>
        rcases hcp : copy_runtime_libraries bd env.buildTree env.outPrior with
          ⟨outF, r2⟩
        cases r2 <;> simp [hcp]
  · intro env args
    exact (build_linux_patch_dead env args).2

/-- C2: requesting the cuda backend on a non-x64 architecture fails with
the configuration error inside cache-variable resolution, on linux and on
windows alike; the corresponding build entry points terminate with an
error and an empty event trace — in particular no external build tool was
invoked. -/
theorem cuda_backend_x64_only :
    (∀ arch : String, arch ≠ "x64" →
      linux_backend_cache_vars arch "cuda" =
        .error (.systemExit "Linux cuda backend build is only available for x64")) ∧
    (∀ arch : String, arch ≠ "x64" →
      windows_backend_cache_vars arch "cuda" =
        .error (.systemExit "Windows cuda backend build is only available for x64")) ∧
    (∀ (env : LinuxEnv) (args : LinuxArgs) (a : String),
      args.backend = "cuda" → args.arch = some a → a ≠ "x64" →
      (build_linux env args).trace = [] ∧
      ∃ e, (build_linux env args).outcome = .error e) ∧
    (∀ (env : WindowsEnv) (args : WindowsArgs),
      args.backend = "cuda" → args.arch ≠ "x64" →
      (build_windows env args).trace = [] ∧
      ∃ e, (build_windows env args).outcome = .error e) := by
  refine ⟨?_, ?_, ?_, ?_⟩
  · intro arch h
    rw [linux_backend_cache_vars, if_pos ⟨rfl, h⟩]
  · intro arch h
    rw [windows_backend_cache_vars, if_pos ⟨rfl, h⟩]
  · intro env args a hb ha hx
    have herr : linux_backend_cache_vars a args.backend =
        .error (.systemExit "Linux cuda backend build is only available for x64") := by
      rw [hb, linux_backend_cache_vars, if_pos ⟨rfl, hx⟩]
    simp only [build_linux, ha]
    by_cases h1 : env.system ≠ "linux"
    · rw [if_pos h1]
      exact ⟨rfl, _, rfl⟩
    · rw [if_neg h1]
      by_cases h2 : env.llamaCMakeExists = false
      · rw [if_pos h2]
        exact ⟨rfl, _, rfl⟩
      · rw [if_neg h2]
        rw [herr]
        exact ⟨rfl, _, rfl⟩
  · intro env args hb hx
    have herr : windows_backend_cache_vars args.arch args.backend =
        .error (.systemExit "Windows cuda backend build is only available for x64") := by
      rw [hb, windows_backend_cache_vars, if_pos ⟨rfl, hx⟩]
    simp only [build_windows]
    by_cases h1 : env.system ≠ "windows"
    · rw [if_pos h1]
      exact ⟨rfl, _, rfl⟩
    · rw [if_neg h1]
      by_cases h2 : env.llamaCMakeExists = false
      · rw [if_pos h2]
        exact ⟨rfl, _, rfl⟩
      · rw [if_neg h2]
        rw [herr]
        exact ⟨rfl, _, rfl⟩

/-- Witness for C2 at architecture arm64 on both platforms, including the
full build entry points on concrete environments. -/
theorem cuda_backend_x64_only_witness :
    linux_backend_cache_vars "arm64" "cuda" =
      .error (.systemExit "Linux cuda backend build is only available for x64") ∧
    windows_backend_cache_vars "arm64" "cuda" =
      .error (.systemExit "Windows cuda backend build is only available for x64") ∧
    ((build_linux sampleLinuxEnv ⟨some "arm64", "cuda", false, none⟩).trace = [] ∧
      ∃ e, (build_linux sampleLinuxEnv
        ⟨some "arm64", "cuda", false, none⟩).outcome = .error e) ∧
    ((build_windows sampleWindowsEnv
        ⟨"arm64", "cuda", false, none, none⟩).trace = [] ∧
      ∃ e, (build_windows sampleWindowsEnv
        ⟨"arm64", "cuda", false, none, none⟩).outcome = .error e) :=
  ⟨cuda_backend_x64_only.1 "arm64" (by decide),
   cuda_backend_x64_only.2.1 "arm64" (by decide),
   cuda_backend_x64_only.2.2.1 sampleLinuxEnv _ "arm64" rfl rfl (by decide),
   cuda_backend_x64_only.2.2.2 sampleWindowsEnv _ rfl (by decide)⟩

theorem finally_trace_head (env : LinuxEnv) (args : LinuxArgs) (preset : String)
    (extra : List String) (applied : Bool) (z : Option (List Char)) :
    (linux_build_collect_finally env args preset extra applied z).trace.head? =
      some (.ran (["cmake", "--preset", preset] ++ extra)) := by
  have hh := configure_and_build_trace_head env.exitOf preset args.jobs extra
  unfold linux_build_collect_finally
  rcases hcb : configure_and_build env.exitOf preset args.jobs extra with ⟨t1, r1⟩
  rw [hcb] at hh
  cases r1 with
  | error e =>
      cases applied <;>
        (cases t1 with
         | nil => simp at hh
         | cons a t => simpa using hh)
  | ok bd =>
      rcases hcp : copy_runtime_libraries bd env.buildTree env.outPrior with
        ⟨outF, r2⟩
      cases r2 <;> cases applied <;>
        (cases t1 with
         | nil => simp at hh
         | cons a t => simp [hcp]; simpa using hh)

/-- C8 counterexample: a request for target x64 on an arm64 host — the
target and host architectures differ — injects no cross-toolchain
arguments and does not fail even though no cross compiler is
discoverable: the external tool is invoked with only the cache-variable
arguments and the run succeeds.  The cross-compile branch of
`build_linux` fires only for an arm64 target on a non-arm64 host. -/
theorem linux_cross_compile_counterexample :
    (build_linux arm64HostEnv ⟨some "x64", "vulkan", false, none⟩).trace =
      [.ran ["cmake", "--preset", "linux-x64-full", "-DGGML_VULKAN=ON",
         "-DGGML_OPENCL=OFF", "-DGGML_CUDA=OFF", "-DGGML_BLAS=OFF",
         "-DGGML_ZENDNN=OFF", "-DGGML_CPU_KLEIDIAI=OFF"],
       .ran ["cmake", "--build", "--preset", "linux-x64-full"]] ∧
    (build_linux arm64HostEnv ⟨some "x64", "vulkan", false, none⟩).outcome =
      .ok () :=
  ⟨rfl, rfl⟩

/-- C8 (amended): in the linux build, cross-toolchain arguments are
injected exactly for arm64-target requests on a non-arm64 host: there, if
either cross compiler is not discoverable on the PATH the build fails
before any external tool invocation (empty trace), and otherwise the four
cross-toolchain arguments (alternate C/C++ compilers, target system and
processor declarations) are appended to the cache-variable arguments of
the very first invoked command, the configure command.  An x64-target
request on an arm64 host — the architectures also differ — gets no cross
arguments and no such failure: its first invoked command carries only the
cache-variable arguments. -/
theorem linux_cross_compile_injection :
    ∀ (env : LinuxEnv) (args : LinuxArgs),
      env.system = "linux" → env.llamaCMakeExists = true →
      args.backend ≠ "cuda" →
      ((args.arch = some "arm64" → detect_linux_arch env.machine = .ok "x64" →
        (env.which "aarch64-linux-gnu-gcc" = none ∨
            env.which "aarch64-linux-gnu-g++" = none) →
        (build_linux env args).trace = [] ∧
        (build_linux env args).outcome = .error (.systemExit
          "Cross compiler not found. Install aarch64-linux-gnu-gcc and aarch64-linux-gnu-g++")) ∧
      (∀ (cc cxx : String) (cache_vars : List (String × String)),
        args.arch = some "arm64" → detect_linux_arch env.machine = .ok "x64" →
        env.which "aarch64-linux-gnu-gcc" = some cc →
        env.which "aarch64-linux-gnu-g++" = some cxx →
        linux_backend_cache_vars "arm64" args.backend = .ok cache_vars →
        ¬(dictGet cache_vars "GGML_CUDA" = some "ON" ∧
          env.which "nvcc" = none ∧ env.which "nvcc.exe" = none) →
        (build_linux env args).trace.head? =
          some (.ran (["cmake", "--preset", "linux-arm64-full"] ++
            (cmake_cache_args cache_vars ++
              ["-DCMAKE_C_COMPILER=" ++ cc, "-DCMAKE_CXX_COMPILER=" ++ cxx,
               "-DCMAKE_SYSTEM_NAME=Linux", "-DCMAKE_SYSTEM_PROCESSOR=aarch64"])))) ∧
      (∀ cache_vars : List (String × String),
        args.arch = some "x64" → detect_linux_arch env.machine = .ok "arm64" →
        linux_backend_cache_vars "x64" args.backend = .ok cache_vars →
        ¬(dictGet cache_vars "GGML_CUDA" = some "ON" ∧
          env.which "nvcc" = none ∧ env.which "nvcc.exe" = none) →
        (build_linux env args).trace.head? =
          some (.ran (["cmake", "--preset", "linux-x64-full"] ++
            cmake_cache_args cache_vars)))) := by
  intro env args hsys hll hbc
  have hsysne : ¬env.system ≠ "linux" := by simp [hsys]
  have hllne : ¬env.llamaCMakeExists = false := by simp [hll]
  refine ⟨?_, ?_, ?_⟩
  · intro ha hdet hnone
    simp only [build_linux, ha]
    rw [if_neg hsysne, if_neg hllne]
    cases hcvv : linux_backend_cache_vars "arm64" args.backend with
    | error e =>
        exfalso
        rw [linux_backend_cache_vars,
          if_neg (by rintro ⟨h, _⟩; exact hbc h)] at hcvv
        exact Except.noConfusion hcvv
    | ok cache_vars =>
        dsimp only
        rw [hdet]
        dsimp only
        rw [if_pos (⟨trivial, by decide⟩ :
          True ∧ ("x64" : String) ≠ "arm64")]
        rcases hg : env.which "aarch64-linux-gnu-gcc" with _ | cc
        · rcases hx : env.which "aarch64-linux-gnu-g++" with _ | cxx
          · exact ⟨rfl, rfl⟩
          · exact ⟨rfl, rfl⟩
        · rcases hx : env.which "aarch64-linux-gnu-g++" with _ | cxx
          · exact ⟨rfl, rfl⟩
          · exfalso
            rcases hnone with h | h
            · rw [hg] at h; exact Option.noConfusion h
            · rw [hx] at h; exact Option.noConfusion h
  · intro cc cxx cache_vars ha hdet hcc hcxx hcv hnv
    simp only [build_linux, ha]
    rw [if_neg hsysne, if_neg hllne]
    rw [hcv]
    dsimp only
    rw [hdet]
    dsimp only
    rw [if_pos (⟨trivial, by decide⟩ :
      True ∧ ("x64" : String) ≠ "arm64")]
    rw [hcc, hcxx]
    dsimp only
    rw [if_neg hnv]
    rw [if_neg (by rintro ⟨h, _⟩; exact absurd h (by decide) :
      ¬(("arm64" : String) = "x64" ∧
        dictGet cache_vars "GGML_ZENDNN" = some "ON"))]
    dsimp only
    rw [show ("linux-" ++ "arm64" ++ "-full" : String) = "linux-arm64-full" from by decide]
    simpa using finally_trace_head env args "linux-arm64-full"
      (cmake_cache_args cache_vars ++
        ["-DCMAKE_C_COMPILER=" ++ cc, "-DCMAKE_CXX_COMPILER=" ++ cxx,
         "-DCMAKE_SYSTEM_NAME=Linux", "-DCMAKE_SYSTEM_PROCESSOR=aarch64"])
      false env.zendnnCMake
  · intro cache_vars hax hdet hcv hnv
    simp only [build_linux, hax]
    rw [if_neg hsysne, if_neg hllne]
    rw [hcv]
    dsimp only
    rw [hdet]
    dsimp only
    rw [if_neg (by decide :
      ¬(("x64" : String) = "arm64" ∧ ("arm64" : String) ≠ "arm64"))]
    dsimp only
    rw [if_neg hnv]
    have hoff := linux_cache_vars_zendnn_off "x64" args.backend cache_vars hcv
    rw [if_neg (by simp [hoff] :
      ¬(True ∧ dictGet cache_vars "GGML_ZENDNN" = some "ON"))]
    dsimp only
    rw [show ("linux-" ++ "x64" ++ "-full" : String) = "linux-x64-full" from by decide]
    simpa using finally_trace_head env args "linux-x64-full"
      (cmake_cache_args cache_vars) false env.zendnnCMake

/-- Witness for C8\'s amended theorem: (linux, arm64, vulkan) requests on
an x86_64 host, once without and once with discoverable cross compilers,
and a (linux, x64, vulkan) request on an aarch64 host. -/
theorem linux_cross_compile_injection_witness :
    ((build_linux sampleLinuxEnv ⟨some "arm64", "vulkan", false, none⟩).trace = [] ∧
      (build_linux sampleLinuxEnv ⟨some "arm64", "vulkan", false, none⟩).outcome =
        .error (.systemExit
          "Cross compiler not found. Install aarch64-linux-gnu-gcc and aarch64-linux-gnu-g++")) ∧
    (build_linux crossLinuxEnv ⟨some "arm64", "vulkan", false, none⟩).trace.head? =
      some (.ran (["cmake", "--preset", "linux-arm64-full"] ++
        (cmake_cache_args linuxVulkanArm64CacheVars ++
          ["-DCMAKE_C_COMPILER=" ++ "/usr/bin/aarch64-linux-gnu-gcc",
           "-DCMAKE_CXX_COMPILER=" ++ "/usr/bin/aarch64-linux-gnu-g++",
           "-DCMAKE_SYSTEM_NAME=Linux", "-DCMAKE_SYSTEM_PROCESSOR=aarch64"]))) ∧
    (build_linux arm64HostEnv ⟨some "x64", "vulkan", false, none⟩).trace.head? =
      some (.ran (["cmake", "--preset", "linux-x64-full"] ++
        cmake_cache_args linuxVulkanX64CacheVars)) :=
  ⟨(linux_cross_compile_injection sampleLinuxEnv ⟨some "arm64", "vulkan", false, none⟩
      rfl rfl (by decide)).1 rfl rfl (Or.inl rfl),
   (linux_cross_compile_injection crossLinuxEnv ⟨some "arm64", "vulkan", false, none⟩
      rfl rfl (by decide)).2.1
     "/usr/bin/aarch64-linux-gnu-gcc" "/usr/bin/aarch64-linux-gnu-g++"
     linuxVulkanArm64CacheVars rfl rfl rfl rfl rfl (fun h => absurd h.1 (by decide)),
   (linux_cross_compile_injection arm64HostEnv ⟨some "x64", "vulkan", false, none⟩
      rfl rfl (by decide)).2.2
     linuxVulkanX64CacheVars rfl rfl rfl (fun h => absurd h.1 (by decide))⟩
